import Mathlib

/-!
Shallow embedding of `src/update_permits.py`: a pipeline that fetches ADU
permit data from configured city sources, normalizes each raw CSV record
into a fixed eleven-field schema, sorts the aggregated rows by approval
date descending, and writes them to `adu_permits.csv`.

Python dictionaries are embedded as association lists `List (String × String)`
(Python dict keys are unique and iteration order is insertion order; every
dict built here has concrete distinct keys).  Python string operations are
embedded as character-list functions (`.strip()`, `.upper()`, `.lower()`,
`.split(...)` and the `in` substring test only ever see ASCII data here, on
which these models agree with CPython).  The HTTP client (`requests`) and
the CSV decoder (`csv.DictReader`) are the external collaborators the spec
places out of scope; the pipeline is therefore parameterized by a fetch
function `String → Option String` (absent on transport failure, mirroring
`fetch_text` returning `None`) and by a decoder `String → List RawRecord`
(mirroring `parse_csv_text`).
-/

namespace AduPermits

/-- A raw record: one parsed CSV row, source-specific field names to values
(`RawRecord` in the spec's data model). -/
abbrev RawRecord := List (String × String)

/-- A normalized output row (`UnifiedRow` in the spec's data model). -/
abbrev UnifiedRow := List (String × String)

/-- `OUTPUT_FIELDNAMES` from the source: the fixed output schema. -/
def OUTPUT_FIELDNAMES : List String :=
  [("City"), ("Project_Name"), ("ADU_Type"), ("Status"), ("Permit_Number"),
   ("Parcel"), ("Zone"), ("ADU_Size_Sqft"), ("Approval_Date"), ("Source_URL"),
   ("Notes")]

/-- `CitySource` dataclass from the source. -/
structure CitySource where
  city_name : String
  url : String
  type : String
  format : String

/-- `CITY_SOURCES` from the source: one live source (Bellevue CSV). -/
def CITY_SOURCES : List CitySource :=
  [{ city_name := ("Bellevue"),
     url := ("https://opendata.arcgis.com/datasets/befaac91b58e4bca8f9cca811d4200a6_0.csv?outSR=4326"),
     type := ("csv"),
     format := ("bellevue_adu") }]

/-- Python's default `str.strip()` whitespace set. -/
def isPySpace (c : Char) : Bool :=
  c = ' ' || c = '\t' || c = '\n' || c = '\x0d' || c = '\x0b' || c = '\x0c'

/-- Model of Python `s.strip()`. -/
def pyStrip (s : String) : String :=
  String.mk (((s.data.dropWhile isPySpace).reverse.dropWhile isPySpace).reverse)

/-- Model of Python `s.upper()` (ASCII data only in this pipeline). -/
def pyUpper (s : String) : String :=
  String.mk (s.data.map Char.toUpper)

/-- Model of Python `s.lower()` (ASCII data only in this pipeline). -/
def pyLower (s : String) : String :=
  String.mk (s.data.map Char.toLower)

/-- Model of Python `s.strip("-")`: remove leading and trailing hyphens. -/
def pyStripDash (s : String) : String :=
  String.mk (((s.data.dropWhile (fun c => c = '-')).reverse.dropWhile
    (fun c => c = '-')).reverse)

/-- Model of Python `s.split("T")[0]`: the text before the first `T`. -/
def splitTHead (s : String) : String :=
  String.mk (s.data.takeWhile (fun c => c ≠ 'T'))

/-- Python substring test (`needle in hay`) on character lists. -/
def containsList (needle : List Char) : List Char → Bool
  | [] => needle.isEmpty
  | c :: rest => needle.isPrefixOf (c :: rest) || containsList needle rest

/-- Python substring test `needle in hay` for strings. -/
def containsSub (hay needle : String) : Bool :=
  containsList needle.data hay.data

/-- Python `raw.get(k)` collapsed with the falsy default: absent keys give
`""` (both `None` and `""` are falsy everywhere this is consumed). -/
def getd (raw : RawRecord) (k : String) : String :=
  (List.lookup k raw).getD ("")

/-- Python `raw.get(k1) or raw.get(k2) or ... or ""`: the first value that is
present and non-empty, else `""`. -/
def firstTruthy (raw : RawRecord) : List String → String
  | [] => ""
  | k :: ks => if getd raw k = "" then firstTruthy raw ks else getd raw k

/-- The `(raw.get(k1) or ... or "").strip()` idiom used by both normalizers
(`normalize_generic_csv` checks `cand in raw and raw[cand]` and then strips
the selected value, which is the same function). -/
def coalesce (raw : RawRecord) (ks : List String) : String :=
  pyStrip (firstTruthy raw ks)

/-- `project_name` local of `normalize_bellevue_adu` (lines 134-142): coalesce
the name candidates, defaulting to `"ADU project"` when blank. -/
def bellevue_project_name (raw : RawRecord) : String :=
  let p := coalesce raw [("PROJECT NAME"), ("Project Name"), ("PROJECT_NAME")]
  if p = "" then ("ADU project") else p

/-- `text_all` local (line 146): `" ".join([project_name, raw.get("PERMIT TYPE") or ""]).upper()`. -/
def bellevue_text_all (raw : RawRecord) : String :=
  pyUpper (bellevue_project_name raw ++ (" ") ++ getd raw ("PERMIT TYPE"))

/-- `adu_type` local (lines 147-152): keyword classification. -/
def bellevue_adu_type (raw : RawRecord) : String :=
  let t := bellevue_text_all raw
  if containsSub t ("DETACHED") || containsSub t ("DADU") || containsSub t ("BACKYARD") then
    ("Detached ADU")
  else if containsSub t ("CONVERSION") || containsSub t ("GARAGE") then
    ("Conversion ADU")
  else
    ("Attached/Unknown ADU")

/-- `status` local (lines 156-161). -/
def bellevue_status (raw : RawRecord) : String :=
  coalesce raw [("PERMIT STATUS"), ("Permit Status"), ("STATUS")]

/-- `permit_number` local (lines 165-177): direct candidates, else
`f"{year}-{seq}".strip("-")` when year or sequence is non-blank. -/
def bellevue_permit_number (raw : RawRecord) : String :=
  let pn := coalesce raw [("PERMIT NUMBER"), ("Permit Number"), ("PERMITNUMBER")]
  if pn = "" then
    let year := pyStrip (getd raw ("PERMIT YEAR"))
    let seq := pyStrip (getd raw ("PERMIT SEQUENCE"))
    if year = "" ∧ seq = "" then ("")
    else pyStripDash (year ++ ("-") ++ seq)
  else pn

/-- `parcel` local (lines 182-187). -/
def bellevue_parcel (raw : RawRecord) : String :=
  coalesce raw [("PARCEL NUMBER"), ("Parcel Number"), ("PARCEL")]

/-- `date_fields` local (lines 197-202). -/
def bellevue_date_fields : List String :=
  [("ISSUE DATE"), ("Issue Date"), ("APPROVAL DATE"), ("Approval Date")]

/-- The date-extraction loop (lines 203-207): first field that is present
with a non-blank stripped value gives `raw[f].strip().split("T")[0]`. -/
def bellevue_approval_date_loop (raw : RawRecord) : List String → String
  | [] => ""
  | f :: fs =>
    match List.lookup f raw with
    | some v => if pyStrip v = "" then bellevue_approval_date_loop raw fs
                else splitTHead (pyStrip v)
    | none => bellevue_approval_date_loop raw fs

/-- `approval_date` local of `normalize_bellevue_adu`. -/
def bellevue_approval_date (raw : RawRecord) : String :=
  bellevue_approval_date_loop raw bellevue_date_fields

/-- `source_url` local (lines 211-217). -/
def bellevue_source_url (raw : RawRecord) : String :=
  coalesce raw [("LINK"), ("Link"), ("URL"), ("PERMIT URL")]

/-- `address` local (line 223). -/
def bellevue_address (raw : RawRecord) : String :=
  coalesce raw [("ADDRESS"), ("Address")]

/-- `zip_code` local (lines 227-232). -/
def bellevue_zip_code (raw : RawRecord) : String :=
  coalesce raw [("ZIP CODE"), ("ZIP"), ("Zip Code")]

/-- `permit_year` local used for the notes line (line 236). -/
def bellevue_permit_year (raw : RawRecord) : String :=
  pyStrip (getd raw ("PERMIT YEAR"))

/-- `notes_parts` and the final join (lines 221-246): conditional appends in
source order, joined with `" | "`. -/
def bellevue_notes (raw : RawRecord) : String :=
  String.intercalate (" | ")
    ((if bellevue_address raw = "" then [] else [("Address: ") ++ bellevue_address raw]) ++
     (if bellevue_zip_code raw = "" then [] else [("ZIP: ") ++ bellevue_zip_code raw]) ++
     (if bellevue_permit_year raw = "" then [] else [("Permit year: ") ++ bellevue_permit_year raw]) ++
     (if bellevue_parcel raw = "" then [] else [("Parcel: ") ++ bellevue_parcel raw]) ++
     (if bellevue_status raw = "" then [] else [("Status: ") ++ bellevue_status raw]))

/-- `normalize_bellevue_adu` (lines 107-248).  The Python function starts from
`{k: "" for k in OUTPUT_FIELDNAMES}` and assigns every key once; since dict
updates preserve insertion order, the resulting dict is exactly this
association list in `OUTPUT_FIELDNAMES` order. -/
def normalize_bellevue_adu (raw : RawRecord) : UnifiedRow :=
  [(("City"), ("Bellevue")),
   (("Project_Name"), bellevue_project_name raw),
   (("ADU_Type"), bellevue_adu_type raw),
   (("Status"), bellevue_status raw),
   (("Permit_Number"), bellevue_permit_number raw),
   (("Parcel"), bellevue_parcel raw),
   (("Zone"), ("")),
   (("ADU_Size_Sqft"), ("")),
   (("Approval_Date"), bellevue_approval_date raw),
   (("Source_URL"), bellevue_source_url raw),
   (("Notes"), bellevue_notes raw)]

/-- `mapping_candidates` of `normalize_generic_csv` (lines 260-271), in the
source's dict order. -/
def mapping_candidates : List (String × List String) :=
  [(("Project_Name"), [("Project_Name"), ("PROJECT NAME"), ("Project"), ("Description")]),
   (("ADU_Type"), [("ADU_Type"), ("Type")]),
   (("Status"), [("Status"), ("PERMIT STATUS")]),
   (("Permit_Number"), [("Permit_Number"), ("PERMIT NUMBER"), ("Permit #")]),
   (("Parcel"), [("Parcel"), ("PARCEL NUMBER")]),
   (("Zone"), [("Zone"), ("Zoning")]),
   (("ADU_Size_Sqft"), [("ADU_Size_Sqft"), ("Size"), ("Square Feet")]),
   (("Approval_Date"), [("Approval_Date"), ("ISSUE DATE"), ("Issue Date"), ("Date")]),
   (("Source_URL"), [("Source_URL"), ("Link"), ("URL")]),
   (("Notes"), [("Notes"), ("Comments")])]

/-- `normalize_generic_csv` (lines 251-279): blanks for every field, `City`
set to the city name, then for each output field the first candidate that is
present and truthy, stripped (a field with no match keeps the initial `""`,
which is what `coalesce` returns then). -/
def normalize_generic_csv (city_name : String) (raw : RawRecord) : UnifiedRow :=
  (("City"), city_name) :: mapping_candidates.map (fun p => (p.1, coalesce raw p.2))

/-- Decimal digit value of a character, if any (ASCII `'0'` is code 48). -/
def digitVal (c : Char) : Option Nat :=
  if '0' ≤ c ∧ c ≤ '9' then some (c.toNat - 48) else none

/-- Gregorian leap-year test, as in Python's `datetime`. -/
def isLeapYear (y : Nat) : Bool :=
  (y % 4 == 0 && y % 100 != 0) || y % 400 == 0

/-- Days in a month, as validated by Python's `datetime`. -/
def daysInMonth (y m : Nat) : Nat :=
  if m = 2 then (if isLeapYear y then 29 else 28)
  else if m = 4 ∨ m = 6 ∨ m = 9 ∨ m = 11 then 30
  else 31

/-- The date part of `fromisoformat`: exactly ten characters `YYYY-MM-DD`
with a valid year (`datetime.MINYEAR` is 1), month and day. -/
def parseDatePart (cs : List Char) : Option (Nat × Nat × Nat) :=
  match cs with
  | [y1, y2, y3, y4, u, m1, m2, v, d1, d2] =>
    match digitVal y1, digitVal y2, digitVal y3, digitVal y4,
          digitVal m1, digitVal m2, digitVal d1, digitVal d2 with
    | some a, some b, some c, some d, some e, some f, some g, some h =>
      if u = '-' ∧ v = '-' then
        let y := a * 1000 + b * 100 + c * 10 + d
        let m := e * 10 + f
        let dd := g * 10 + h
        if 1 ≤ y ∧ 1 ≤ m ∧ m ≤ 12 ∧ 1 ≤ dd ∧ dd ≤ daysInMonth y m then
          some (y, m, dd)
        else none
      else none
    | _, _, _, _, _, _, _, _ => none
  | _ => none

/-- Exactly two decimal digits, returning their value and the rest. -/
def digits2 : List Char → Option (Nat × List Char)
  | a :: b :: rest =>
    match digitVal a, digitVal b with
    | some x, some y => some (x * 10 + y, rest)
    | _, _ => none
  | _ => none

/-- Value of a digit string. -/
def digitsToNat (l : List Char) : Nat :=
  l.foldl (fun acc c => acc * 10 + (digitVal c).getD 0) 0

/-- Model of CPython's `_parse_hh_mm_ss_ff`: `HH[:MM[:SS[.fff | .ffffff]]]`,
returning hours, minutes, seconds and the fraction in microseconds (a
three-digit fraction is milliseconds and is scaled by 1000). -/
def parseHMSF (l : List Char) : Option (Nat × Nat × Nat × Nat) :=
  match digits2 l with
  | none => none
  | some (h, r1) =>
    match r1 with
    | [] => some (h, 0, 0, 0)
    | ':' :: r2 =>
      match digits2 r2 with
      | none => none
      | some (m, r3) =>
        match r3 with
        | [] => some (h, m, 0, 0)
        | ':' :: r4 =>
          match digits2 r4 with
          | none => none
          | some (s, r5) =>
            match r5 with
            | [] => some (h, m, s, 0)
            | '.' :: fr =>
              if fr.all (fun c => (digitVal c).isSome) then
                if fr.length = 3 then some (h, m, s, digitsToNat fr * 1000)
                else if fr.length = 6 then some (h, m, s, digitsToNat fr)
                else none
              else none
            | _ => none
        | _ => none
    | _ => none

/-- A valid time-of-day component: parses and satisfies the `datetime`
constructor's range checks (hour below 24, minute and second below 60). -/
def validTimePart (l : List Char) : Bool :=
  match parseHMSF l with
  | some (h, m, s, _) => decide (h < 24) && decide (m < 60) && decide (s < 60)
  | none => false

/-- A valid UTC-offset string (sign already removed): CPython requires
length 5, 8 or 15 (`HH:MM`, `HH:MM:SS`, `HH:MM:SS.ffffff`) and an offset
magnitude strictly below 24 hours (individual components are unchecked —
they only feed a `timedelta`). -/
def validTzPart (l : List Char) : Bool :=
  (decide (l.length = 5 ∨ l.length = 8 ∨ l.length = 15)) &&
  match parseHMSF l with
  | some (h, m, s, f) =>
    decide (h * 3600000000 + m * 60000000 + s * 1000000 + f < 86400000000)
  | none => false

/-- Split a list at the first occurrence of `c`, dropping that occurrence. -/
def splitFirst (c : Char) : List Char → Option (List Char × List Char)
  | [] => none
  | x :: rest =>
    if x = c then some ([], rest)
    else
      match splitFirst c rest with
      | some (a, b) => some (x :: a, b)
      | none => none

/-- CPython splits the time string at the first `-` anywhere in it, else at
the first `+`, to separate the UTC offset (whose sign does not affect
validity). -/
def splitTzSign (l : List Char) : List Char × Option (List Char) :=
  match splitFirst '-' l with
  | some (a, b) => (a, some b)
  | none =>
    match splitFirst '+' l with
    | some (a, b) => (a, some b)
    | none => (l, none)

/-- Model of `datetime.fromisoformat(s).date()`: the set of strings accepted
by every CPython release since 3.7 (where `fromisoformat` first appeared) —
an exact `YYYY-MM-DD` calendar date, optionally followed by one arbitrary
separator character and a time `HH[:MM[:SS[.fff | .ffffff]]]`, optionally
followed by a UTC offset `±HH:MM[:SS[.ffffff]]`, with the `datetime`
constructor's range checks.  Outside this common set the interpreter
versions disagree with each other, so no single function is the program
there: CPython 3.7-3.10 additionally tolerate stray whitespace, signs and
underscores inside numeric fields (parsed with `int`), which 3.11 rejects,
while 3.11 additionally accepts further ISO-8601 forms (such as `YYYYMMDD`
or a `Z` suffix), which 3.7-3.10 reject; both extensions are modelled as
failures. -/
def fromisoformatDate (s : String) : Option (Nat × Nat × Nat) :=
  match parseDatePart (s.data.take 10) with
  | none => none
  | some ymd =>
    match s.data.drop 10 with
    | [] => some ymd
    | _ :: tstr =>
      if tstr.length < 2 then none
      else
        match splitTzSign tstr with
        | (timecs, none) => if validTimePart timecs then some ymd else none
        | (timecs, some tzcs) =>
          if validTimePart timecs && validTzPart tzcs then some ymd else none

/-- `parse_date` from `main` (lines 321-325), as a sort key: a parsed date is
encoded as `y * 10000 + m * 100 + d` (this encoding is strictly monotone in
the calendar order `datetime.date` compares by), and any parse failure is the
epoch `date(1970, 1, 1)`. -/
def parse_date (s : String) : Nat :=
  match fromisoformatDate s with
  | some (y, m, d) => y * 10000 + m * 100 + d
  | none => 19700101

/-- The sort key of one row: `parse_date(r.get("Approval_Date", ""))`. -/
def rowDateKey (r : UnifiedRow) : Nat :=
  parse_date (getd r ("Approval_Date"))

/-- Descending-by-date ordering on rows. -/
def relDesc (a b : UnifiedRow) : Prop :=
  rowDateKey b ≤ rowDateKey a

instance : DecidableRel relDesc := fun _ _ => Nat.decLe _ _

instance : IsTotal UnifiedRow relDesc := ⟨fun _ _ => Nat.le_total _ _⟩

instance : IsTrans UnifiedRow relDesc := ⟨fun _ _ _ h1 h2 => Nat.le_trans h2 h1⟩

/-- `all_rows.sort(key=parse_date(...), reverse=True)` (line 327).  Python's
`list.sort` is stable, and a stable sort with respect to a total preorder is
unique; `insertionSort` with `relDesc` is sorted, a permutation, and stable
(proved below), hence equal to the Python result. -/
def sortRows (rows : List UnifiedRow) : List UnifiedRow :=
  List.insertionSort relDesc rows

/-- Outcome of a run: either leave any existing `adu_permits.csv` untouched,
or overwrite it with a header plus the given rows. -/
inductive WriteOutcome where
  | keepExisting : WriteOutcome
  | write : List UnifiedRow → WriteOutcome
deriving DecidableEq

/-- The rows an outcome puts on disk (none when the file is left alone). -/
def writtenRows : WriteOutcome → List UnifiedRow
  | WriteOutcome.keepExisting => []
  | WriteOutcome.write rows => rows

/-- The source loop of `main` (lines 289-314), parameterized by the external
fetcher and CSV decoder.  A `csv` source is fetched; a falsy result (`None`
or `""`, Python `if not text`) contributes nothing; otherwise each decoded
record is normalized per the source's `format`; unsupported formats and
types contribute nothing (`continue`). -/
def collectRows (fetch : String → Option String)
    (parseCsvText : String → List RawRecord) : List CitySource → List UnifiedRow
  | [] => []
  | src :: rest =>
    (if src.type = ("csv") then
      match fetch src.url with
      | none => []
      | some text =>
        if text = "" then []
        else if src.format = ("bellevue_adu") then
          (parseCsvText text).map normalize_bellevue_adu
        else if src.format = ("generic_csv") then
          (parseCsvText text).map (normalize_generic_csv src.city_name)
        else []
    else []) ++ collectRows fetch parseCsvText rest

/-- `main` (lines 286-339): collect rows from all sources; if none were
collected, warn and keep the existing output file, returning 0; otherwise
sort descending by approval date, overwrite the output file with the rows,
and return 0. -/
def main (fetch : String → Option String)
    (parseCsvText : String → List RawRecord) : WriteOutcome × Int :=
  let all_rows := collectRows fetch parseCsvText CITY_SOURCES
  if all_rows = [] then (WriteOutcome.keepExisting, 0)
  else (WriteOutcome.write (sortRows all_rows), 0)

/-!
Specification-side definitions, written from the spec's and claims' words,
to be compared with the embedded code above.
-/

/-- Spec wording (C1): a row whose `Status`, after trimming and
case-insensitive comparison, begins with the stem `"cancel"`. -/
def statusStartsWithCancelSpec (row : UnifiedRow) : Bool :=
  List.isPrefixOf (("cancel").data) ((pyLower (pyStrip (getd row ("Status")))).data)

/-- Spec wording (C5): try an ordered list of candidate source-field names,
use the first non-empty match (stripped), default to the empty string. -/
def specFirstNonEmpty (raw : RawRecord) (cands : List String) : String :=
  match cands.find? (fun k => getd raw k != "") with
  | some k => pyStrip (getd raw k)
  | none => ""

/-- Spec wording (C5): the generic normalizer's row, every mapped field being
the first non-empty candidate match. -/
def specGenericRow (city_name : String) (raw : RawRecord) : UnifiedRow :=
  (("City"), city_name) :: mapping_candidates.map (fun p => (p.1, specFirstNonEmpty raw p.2))

/-- Spec wording (C9): case-insensitive keyword search over the concatenated
project name and permit-type text, detached keywords first. -/
def specClassifyADU (name ptype : String) : String :=
  let t := pyUpper (name ++ (" ") ++ ptype)
  if [("DETACHED"), ("DADU"), ("BACKYARD")].any (fun w => containsSub t w) then
    ("Detached ADU")
  else if [("CONVERSION"), ("GARAGE")].any (fun w => containsSub t w) then
    ("Conversion ADU")
  else
    ("Attached/Unknown ADU")

/-- Spec wording (C4 amended): the first date candidate whose stripped value
is non-blank, stripped and truncated at the first `T`; empty when none is. -/
def specApprovalDate (raw : RawRecord) : String :=
  match bellevue_date_fields.find? (fun f => pyStrip (getd raw f) != "") with
  | some f => splitTHead (pyStrip (getd raw f))
  | none => ""

/-- Spec wording (C10): join, with separator `" | "`, of exactly the
non-empty sub-facts in the fixed order address, zip, permit year, parcel,
status. -/
def specNotes (raw : RawRecord) : String :=
  String.intercalate (" | ")
    (([(("Address: "), bellevue_address raw),
       (("ZIP: "), bellevue_zip_code raw),
       (("Permit year: "), bellevue_permit_year raw),
       (("Parcel: "), bellevue_parcel raw),
       (("Status: "), bellevue_status raw)]).filterMap
      (fun p => if p.2 = "" then none else some (p.1 ++ p.2)))

/-- Spec wording (C4): an ISO-8601 calendar date of the form `YYYY-MM-DD`. -/
def isYYYYMMDD (s : String) : Bool :=
  (parseDatePart s.data).isSome

/-!
General lemmas about the embedded definitions.
-/

theorem lookup_isSome_iff_mem_keys (l : List (String × String)) (k : String) :
    (List.lookup k l).isSome ↔ k ∈ l.map Prod.fst := by
  induction l with
  | nil => simp [List.lookup]
  | cons p t ih =>
    obtain ⟨a, b⟩ := p
    by_cases h : k = a
    · subst h; simp [List.lookup]
    · have hb : (k == a) = false := beq_eq_false_iff_ne.mpr h
      simp [List.lookup, hb, ih, h]

theorem coalesce_eq_specFirstNonEmpty (raw : RawRecord) (ks : List String) :
    coalesce raw ks = specFirstNonEmpty raw ks := by
  induction ks with
  | nil => rfl
  | cons k t ih =>
    by_cases h : getd raw k = ""
    · have hbne : (getd raw k != "") = false := by simp [h]
      simpa [coalesce, firstTruthy, specFirstNonEmpty, List.find?, h, hbne] using ih
    · have hbne : (getd raw k != "") = true := by simpa using h
      simp [coalesce, firstTruthy, specFirstNonEmpty, List.find?, h, hbne]

theorem approval_date_loop_eq_spec (raw : RawRecord) (fs : List String) :
    bellevue_approval_date_loop raw fs
      = (match fs.find? (fun f => pyStrip (getd raw f) != "") with
         | some f => splitTHead (pyStrip (getd raw f))
         | none => "") := by
  induction fs with
  | nil => rfl
  | cons f t ih =>
    cases hl : List.lookup f raw with
    | none =>
      have hg : getd raw f = "" := by simp [getd, hl]
      have hbne : (pyStrip (getd raw f) != "") = false := by
        simp [hg]
        rfl
      simpa [bellevue_approval_date_loop, hl, List.find?, hbne] using ih
    | some v =>
      have hg : getd raw f = v := by simp [getd, hl]
      by_cases h : pyStrip v = ""
      · have hbne : (pyStrip v != "") = false := by simp [h]
        simpa [bellevue_approval_date_loop, hl, List.find?, hg, hbne, h] using ih
      · have hbne : (pyStrip v != "") = true := by simpa using h
        simp [bellevue_approval_date_loop, hl, List.find?, hg, hbne, h]

theorem bellevue_approval_date_eq_spec (raw : RawRecord) :
    bellevue_approval_date raw = specApprovalDate raw :=
  approval_date_loop_eq_spec raw bellevue_date_fields

theorem sortRows_perm (rows : List UnifiedRow) : (sortRows rows).Perm rows :=
  List.perm_insertionSort relDesc rows

theorem mem_sortRows (rows : List UnifiedRow) (r : UnifiedRow) :
    r ∈ sortRows rows ↔ r ∈ rows :=
  (sortRows_perm rows).mem_iff

theorem sorted_sortRows (rows : List UnifiedRow) :
    (sortRows rows).Pairwise (fun a b => rowDateKey b ≤ rowDateKey a) :=
  List.sorted_insertionSort relDesc rows

theorem filter_orderedInsert (k : Nat) (x : UnifiedRow) (l : List UnifiedRow) :
    (List.orderedInsert relDesc x l).filter (fun r => decide (rowDateKey r = k))
      = if rowDateKey x = k then x :: l.filter (fun r => decide (rowDateKey r = k))
        else l.filter (fun r => decide (rowDateKey r = k)) := by
  induction l with
  | nil =>
    by_cases hx : rowDateKey x = k <;> simp [List.orderedInsert, List.filter, hx]
  | cons b t ih =>
    by_cases hr : relDesc x b
    · by_cases hx : rowDateKey x = k <;>
        by_cases hb : rowDateKey b = k <;>
          simp [List.orderedInsert, hr, List.filter, hx, hb]
    · by_cases hb : rowDateKey b = k
      · have hx : ¬ rowDateKey x = k := fun hx => hr (by simp [relDesc, hb, hx])
        simp [List.orderedInsert, hr, List.filter, hb, hx, ih]
      · by_cases hx : rowDateKey x = k <;>
          simp [List.orderedInsert, hr, List.filter, hb, hx, ih]

theorem filter_sortRows (rows : List UnifiedRow) (k : Nat) :
    (sortRows rows).filter (fun r => decide (rowDateKey r = k))
      = rows.filter (fun r => decide (rowDateKey r = k)) := by
  induction rows with
  | nil => rfl
  | cons x t ih =>
    show (List.orderedInsert relDesc x (List.insertionSort relDesc t)).filter _ = _
    rw [filter_orderedInsert]
    have ih' : (List.insertionSort relDesc t).filter
        (fun r => decide (rowDateKey r = k))
        = t.filter (fun r => decide (rowDateKey r = k)) := ih
    rw [ih']
    by_cases hx : rowDateKey x = k <;> simp [List.filter, hx]

theorem collectRows_all_fail (fetch : String → Option String)
    (parseCsvText : String → List RawRecord) (sources : List CitySource)
    (h : ∀ src ∈ sources, fetch src.url = none) :
    collectRows fetch parseCsvText sources = [] := by
  induction sources with
  | nil => rfl
  | cons src rest ih =>
    have hs : fetch src.url = none := h src (by simp)
    have hr : collectRows fetch parseCsvText rest = [] :=
      ih (fun s hmem => h s (by simp [hmem]))
    simp only [collectRows, hs, hr]
    split <;> simp

theorem collectRows_filter_isSome (fetch : String → Option String)
    (parseCsvText : String → List RawRecord) (sources : List CitySource) :
    collectRows fetch parseCsvText sources
      = collectRows fetch parseCsvText
          (sources.filter (fun s => (fetch s.url).isSome)) := by
  induction sources with
  | nil => rfl
  | cons src rest ih =>
    cases hs : fetch src.url with
    | none =>
      have : (List.filter (fun s => (fetch s.url).isSome) (src :: rest))
          = List.filter (fun s => (fetch s.url).isSome) rest := by
        simp [List.filter, hs]
      rw [this, ← ih]
      simp only [collectRows, hs]
      split <;> simp
    | some t =>
      have : (List.filter (fun s => (fetch s.url).isSome) (src :: rest))
          = src :: List.filter (fun s => (fetch s.url).isSome) rest := by
        simp [List.filter, hs]
      rw [this]
      simp only [collectRows, hs, ih]

theorem mem_writtenRows_main (fetch : String → Option String)
    (parseCsvText : String → List RawRecord) (r : UnifiedRow) :
    r ∈ writtenRows (main fetch parseCsvText).1
      ↔ r ∈ collectRows fetch parseCsvText CITY_SOURCES := by
  unfold main
  by_cases h : collectRows fetch parseCsvText CITY_SOURCES = []
  · simp [h, writtenRows]
  · simp [h, writtenRows, mem_sortRows]

/-!
Concrete example data used by the claim theorems.
-/

/-- A unified row with the given project name and approval date and blanks
elsewhere, for the sorting scenario. -/
def mkRow (name date : String) : UnifiedRow :=
  [(("City"), ("X")), (("Project_Name"), name), (("ADU_Type"), ("")),
   (("Status"), ("")), (("Permit_Number"), ("")), (("Parcel"), ("")),
   (("Zone"), ("")), (("ADU_Size_Sqft"), ("")),
   (("Approval_Date"), date), (("Source_URL"), ("")), (("Notes"), (""))]

/-- A raw Bellevue record whose permit was issued. -/
def exRawIssued : RawRecord :=
  [(("PERMIT STATUS"), ("Issued")), (("ISSUE DATE"), ("2024-03-01"))]

/-- A raw Bellevue record whose permit was cancelled. -/
def exRawCancelled : RawRecord :=
  [(("PERMIT STATUS"), ("cancelled")), (("ISSUE DATE"), ("2024-03-01"))]

/-- A fetcher for which every URL succeeds with a stub document. -/
def exFetch : String → Option String := fun _ => some ("stub")

/-- A CSV decoder returning one issued and one cancelled record. -/
def exParse : String → List RawRecord := fun _ => [exRawIssued, exRawCancelled]

/-- A raw record carrying an epoch-milliseconds timestamp as its issue date. -/
def exRawEpochMs : RawRecord := [(("ISSUE DATE"), ("1700000000000"))]

/-- A raw record with only a permit year and sequence. -/
def exRawComposite : RawRecord :=
  [(("PERMIT YEAR"), ("2022")), (("PERMIT SEQUENCE"), ("045"))]

/-- A raw record whose permit year starts with a hyphen. -/
def exRawHyphenYear : RawRecord :=
  [(("PERMIT YEAR"), ("-2022")), (("PERMIT SEQUENCE"), ("045"))]

/-!
Claim theorems.
-/

/-- Claim C1, counterexample: `main` contains no status filter, so a run
whose sources produce an issued and a cancelled record writes both rows; the
row whose `Status` is `"cancelled"` (which the claim says is excluded) is in
the final output. -/
theorem C1_counterexample :
    statusStartsWithCancelSpec (normalize_bellevue_adu exRawCancelled) = true ∧
    main exFetch exParse
      = (WriteOutcome.write [normalize_bellevue_adu exRawIssued,
          normalize_bellevue_adu exRawCancelled], 0) ∧
    normalize_bellevue_adu exRawCancelled ∈ writtenRows (main exFetch exParse).1 := by
  refine ⟨rfl, rfl, ?_⟩
  have h : writtenRows (main exFetch exParse).1
      = [normalize_bellevue_adu exRawIssued, normalize_bellevue_adu exRawCancelled] := rfl
  rw [h]
  exact List.mem_cons_of_mem _ (List.mem_cons_self _ _)

/-- Claim C1, amended: the pipeline performs no status-based filtering at
all — the written output contains exactly the aggregated rows (reordered by
the sort), regardless of their `Status`. -/
theorem C1_amended_no_status_filter :
    ∀ (fetch : String → Option String) (parseCsvText : String → List RawRecord)
      (r : UnifiedRow),
      r ∈ writtenRows (main fetch parseCsvText).1
        ↔ r ∈ collectRows fetch parseCsvText CITY_SOURCES :=
  mem_writtenRows_main

/-- Claim C2: both normalizers produce rows whose keys are exactly the eleven
`OUTPUT_FIELDNAMES`, in order, and every one of the eleven keys looks up to
a (string) value — no key is absent. -/
theorem C2_eleven_keys :
    (∀ raw : RawRecord,
      (normalize_bellevue_adu raw).map Prod.fst = OUTPUT_FIELDNAMES ∧
      ∀ k : String,
        ((normalize_bellevue_adu raw).lookup k).isSome ↔ k ∈ OUTPUT_FIELDNAMES) ∧
    (∀ (city : String) (raw : RawRecord),
      (normalize_generic_csv city raw).map Prod.fst = OUTPUT_FIELDNAMES ∧
      ∀ k : String,
        ((normalize_generic_csv city raw).lookup k).isSome ↔ k ∈ OUTPUT_FIELDNAMES) := by
  constructor
  · intro raw
    have hk : (normalize_bellevue_adu raw).map Prod.fst = OUTPUT_FIELDNAMES := rfl
    exact ⟨hk, fun k => by rw [lookup_isSome_iff_mem_keys, hk]⟩
  · intro city raw
    have hk : (normalize_generic_csv city raw).map Prod.fst = OUTPUT_FIELDNAMES := rfl
    exact ⟨hk, fun k => by rw [lookup_isSome_iff_mem_keys, hk]⟩

/-- Claim C3: the final ordering is the stable descending sort by
`Approval_Date` with unparsable or empty dates keyed as 1970-01-01: the
spec's three-row scenario sorts as claimed, the sorted list is pairwise
non-increasing in date key, it is a permutation of the input, rows with
equal keys keep their relative order (stability, stated as filter
preservation), the empty date has the same key as `1970-01-01`, and a
date-plus-time string that `fromisoformat` accepts is keyed by its calendar
date rather than sinking to the epoch. -/
theorem C3_sort_stable_descending :
    sortRows [mkRow ("a") ("2024-03-01"), mkRow ("b") (""), mkRow ("c") ("2023-01-15")]
      = [mkRow ("a") ("2024-03-01"), mkRow ("c") ("2023-01-15"), mkRow ("b") ("")] ∧
    (∀ rows : List UnifiedRow,
      (sortRows rows).Pairwise (fun a b => rowDateKey b ≤ rowDateKey a)) ∧
    (∀ rows : List UnifiedRow, (sortRows rows).Perm rows) ∧
    (∀ (rows : List UnifiedRow) (k : Nat),
      (sortRows rows).filter (fun r => decide (rowDateKey r = k))
        = rows.filter (fun r => decide (rowDateKey r = k))) ∧
    parse_date ("") = parse_date ("1970-01-01") ∧
    parse_date ("2024-03-01 05:00:00") = parse_date ("2024-03-01") :=
  ⟨rfl, sorted_sortRows, sortRows_perm, filter_sortRows, rfl, rfl⟩

/-- Claim C4, counterexample: an epoch-milliseconds issue date is not
converted — the normalized `Approval_Date` is the original digit string,
which is neither empty nor of `YYYY-MM-DD` form. -/
theorem C4_counterexample :
    (normalize_bellevue_adu exRawEpochMs).lookup ("Approval_Date")
        = some ("1700000000000") ∧
    isYYYYMMDD ("1700000000000") = false ∧
    ("1700000000000" : String) ≠ ("") :=
  ⟨rfl, rfl, by decide⟩

/-- Claim C4, amended: the normalized `Approval_Date` is the stripped value
of the first non-blank date candidate truncated at the first `T` (empty when
no candidate is non-blank); ISO datetime strings therefore become
`YYYY-MM-DD`, but non-ISO strings such as epoch-milliseconds timestamps are
preserved verbatim rather than converted. -/
theorem C4_amended_date_truncation :
    (∀ raw : RawRecord,
      (normalize_bellevue_adu raw).lookup ("Approval_Date")
        = some (specApprovalDate raw)) ∧
    (normalize_bellevue_adu [(("ISSUE DATE"), ("2024-03-01T00:00:00"))]).lookup
        ("Approval_Date") = some ("2024-03-01") := by
  constructor
  · intro raw
    show some (bellevue_approval_date raw) = some (specApprovalDate raw)
    rw [bellevue_approval_date_eq_spec]
  · rfl

/-- Claim C5, counterexample: with every project-name candidate absent, the
Bellevue normalizer sets `Project_Name` to `"ADU project"`, not the empty
string the claim requires. -/
theorem C5_counterexample :
    (normalize_bellevue_adu ([] : RawRecord)).lookup ("Project_Name")
        = some ("ADU project") ∧
    ("ADU project" : String) ≠ ("") :=
  ⟨rfl, by decide⟩

/-- Claim C5, amended: every coalesced field is the first non-empty
candidate match (stripped), defaulting to the empty string — for all ten
mapped fields of the generic normalizer and for the Bellevue normalizer's
`Status`, `Parcel` and `Source_URL` — except that Bellevue's `Project_Name`
falls back to `"ADU project"` instead of `""` when no candidate matches. -/
theorem C5_amended_coalescing :
    (∀ (city : String) (raw : RawRecord),
      normalize_generic_csv city raw = specGenericRow city raw) ∧
    (∀ raw : RawRecord,
      (normalize_bellevue_adu raw).lookup ("Status")
          = some (specFirstNonEmpty raw [("PERMIT STATUS"), ("Permit Status"), ("STATUS")]) ∧
      (normalize_bellevue_adu raw).lookup ("Parcel")
          = some (specFirstNonEmpty raw [("PARCEL NUMBER"), ("Parcel Number"), ("PARCEL")]) ∧
      (normalize_bellevue_adu raw).lookup ("Source_URL")
          = some (specFirstNonEmpty raw [("LINK"), ("Link"), ("URL"), ("PERMIT URL")]) ∧
      (normalize_bellevue_adu raw).lookup ("Project_Name")
          = some (if specFirstNonEmpty raw
                      [("PROJECT NAME"), ("Project Name"), ("PROJECT_NAME")] = ""
                  then ("ADU project")
                  else specFirstNonEmpty raw
                      [("PROJECT NAME"), ("Project Name"), ("PROJECT_NAME")])) := by
  constructor
  · intro city raw
    unfold normalize_generic_csv specGenericRow
    have hf : (fun p : String × List String => (p.1, coalesce raw p.2))
        = (fun p : String × List String => (p.1, specFirstNonEmpty raw p.2)) :=
      funext fun p => by rw [coalesce_eq_specFirstNonEmpty]
    rw [hf]
  · intro raw
    refine ⟨?_, ?_, ?_, ?_⟩
    · show some (bellevue_status raw) = _
      rw [bellevue_status, coalesce_eq_specFirstNonEmpty]
    · show some (bellevue_parcel raw) = _
      rw [bellevue_parcel, coalesce_eq_specFirstNonEmpty]
    · show some (bellevue_source_url raw) = _
      rw [bellevue_source_url, coalesce_eq_specFirstNonEmpty]
    · show some (bellevue_project_name raw) = _
      rw [bellevue_project_name, coalesce_eq_specFirstNonEmpty]

/-- Claim C6, counterexample: the composite permit number is built with
`.strip("-")`, which also removes hyphens belonging to the year or sequence
themselves: a record with `PERMIT YEAR = "-2022"` and
`PERMIT SEQUENCE = "045"` yields `"2022-045"`, not the plain hyphen-join
`"-2022-045"` the claim describes. -/
theorem C6_counterexample :
    (normalize_bellevue_adu exRawHyphenYear).lookup ("Permit_Number")
        = some ("2022-045") ∧
    ("2022-045" : String) ≠ ("-2022") ++ ("-") ++ ("045") :=
  ⟨rfl, by decide⟩

/-- Claim C6, amended: when every direct permit-number candidate is empty or
absent, `Permit_Number` is the year and sequence joined by a hyphen with all
leading and trailing hyphens stripped from the result — hence the hyphen is
omitted when either side is empty and the result is empty when both are
(the spec scenario 2022/045 gives `"2022-045"`, see the witness). -/
theorem C6_amended_composite (raw : RawRecord)
    (h : coalesce raw [("PERMIT NUMBER"), ("Permit Number"), ("PERMITNUMBER")] = "") :
    (normalize_bellevue_adu raw).lookup ("Permit_Number")
      = some (pyStripDash (pyStrip (getd raw ("PERMIT YEAR")) ++ ("-")
          ++ pyStrip (getd raw ("PERMIT SEQUENCE")))) := by
  show some (bellevue_permit_number raw) = _
  simp only [bellevue_permit_number, h, if_pos]
  by_cases hy : pyStrip (getd raw ("PERMIT YEAR")) = ""
      ∧ pyStrip (getd raw ("PERMIT SEQUENCE")) = ""
  · rw [if_pos hy, hy.1, hy.2]
    rfl
  · rw [if_neg hy]

/-- Claim C6, witness: the spec's own scenario, `PERMIT YEAR = "2022"`,
`PERMIT SEQUENCE = "045"`, no direct permit-number field, gives
`Permit_Number = "2022-045"`. -/
theorem C6_amended_composite_witness :
    coalesce exRawComposite [("PERMIT NUMBER"), ("Permit Number"), ("PERMITNUMBER")] = ("") ∧
    (normalize_bellevue_adu exRawComposite).lookup ("Permit_Number") = some ("2022-045") :=
  ⟨rfl, (C6_amended_composite exRawComposite rfl).trans (by rfl)⟩

/-- Claim C7: when the aggregated row list is empty — in particular when
every source fails to fetch — `main` keeps the existing output untouched
and exits with code 0. -/
theorem C7_empty_keeps_output :
    (∀ (fetch : String → Option String) (parseCsvText : String → List RawRecord),
      collectRows fetch parseCsvText CITY_SOURCES = [] →
      main fetch parseCsvText = (WriteOutcome.keepExisting, 0)) ∧
    (∀ (fetch : String → Option String) (parseCsvText : String → List RawRecord),
      (∀ src ∈ CITY_SOURCES, fetch src.url = none) →
      main fetch parseCsvText = (WriteOutcome.keepExisting, 0)) := by
  constructor
  · intro fetch parse h
    simp [main, h]
  · intro fetch parse h
    simp [main, collectRows_all_fail fetch parse CITY_SOURCES h]

/-- Claim C7, witness: a run in which the only configured source fails to
fetch keeps the existing output and returns 0. -/
theorem C7_empty_keeps_output_witness :
    main (fun _ => none) (fun _ => []) = (WriteOutcome.keepExisting, 0) :=
  C7_empty_keeps_output.2 (fun _ => none) (fun _ => []) (fun _ _ => rfl)

/-- Claim C8: a source whose fetch is absent contributes nothing and the
pipeline continues: the collected rows equal the rows collected from just
the sources whose fetch succeeded, so failed sources leave the output of
the others unaffected. -/
theorem C8_failed_sources_skipped :
    ∀ (fetch : String → Option String) (parseCsvText : String → List RawRecord)
      (sources : List CitySource),
      collectRows fetch parseCsvText sources
        = collectRows fetch parseCsvText
            (sources.filter (fun s => (fetch s.url).isSome)) :=
  collectRows_filter_isSome

/-- Claim C9: for Bellevue records (which never carry an explicit ADU-type
field) the `ADU_Type` is the claim's keyword classification — detached
keywords first, then conversion keywords, else attached/unknown — applied
case-insensitively to the concatenated project name and permit-type text;
and the detached keywords take precedence when both sets appear. -/
theorem C9_adu_type_classification :
    (∀ raw : RawRecord,
      (normalize_bellevue_adu raw).lookup ("ADU_Type")
        = some (specClassifyADU
            (((normalize_bellevue_adu raw).lookup ("Project_Name")).getD (""))
            (getd raw ("PERMIT TYPE")))) ∧
    specClassifyADU ("Detached garage conversion") ("") = ("Detached ADU") := by
  constructor
  · intro raw
    show some (bellevue_adu_type raw)
        = some (specClassifyADU (bellevue_project_name raw) (getd raw ("PERMIT TYPE")))
    simp only [bellevue_adu_type, specClassifyADU, bellevue_text_all,
      List.any_cons, List.any_nil, Bool.or_false, Bool.or_assoc]
  · rfl

/-- Claim C10: the Bellevue `Notes` field is the `" | "`-join of exactly the
non-empty sub-facts in the order address, zip, permit year, parcel, status,
and is empty when all sub-facts are empty. -/
theorem C10_notes_join :
    (∀ raw : RawRecord,
      (normalize_bellevue_adu raw).lookup ("Notes") = some (specNotes raw)) ∧
    (normalize_bellevue_adu ([] : RawRecord)).lookup ("Notes") = some ("") := by
  constructor
  · intro raw
    show some (bellevue_notes raw) = some (specNotes raw)
    unfold bellevue_notes specNotes
    by_cases h1 : bellevue_address raw = "" <;>
      by_cases h2 : bellevue_zip_code raw = "" <;>
        by_cases h3 : bellevue_permit_year raw = "" <;>
          by_cases h4 : bellevue_parcel raw = "" <;>
            by_cases h5 : bellevue_status raw = "" <;>
              simp [h1, h2, h3, h4, h5, List.filterMap]
  · rfl

end AduPermits
